import Mathlib

/-!
Shallow embedding of `src/blocks/custom.rs` (the `Custom` block of the
i3status-rust fork): its construction (`ConfigBlock::new`), rendering
(`Block::render`), click handling (`Block::click`), signal handling
(`Block::signal`) and update-interval accessor, together with the
environment (shell execution, JSON parsing, icon lookup, channel send,
clock) that those methods interact with.

External side effects are passed in explicitly: shell execution results,
the JSON parse function (serde_json), the icon lookup (the shared config's
theme), the state of the re-render channel and the current instant are
fields of environment records, so every method is a pure function from a
`Custom` state and an environment to its result, its sent messages and its
successor state.
-/

namespace Custom

/-- Modelled from the spec: the Update Directive — "tagged value, one of
`Every(duration)`, `OnDemand`, `Once`" (§3). The `Update` type lives in
`blocks/mod.rs`, which is not part of the sources; durations are modelled
as natural numbers of time units. -/
inductive Update where
  | every (duration : Nat)
  | onDemand
  | once
deriving DecidableEq, Repr

/-- Widget state/severity tag (`widgets::State`); `default_state()` in the
source returns `State::Idle`. -/
inductive State where
  | idle
  | info
  | good
  | warning
  | critical
deriving DecidableEq, Repr

/-- The errors the `Custom` block's methods can produce: `BlockError` (the
crate's block-level error, built at construction and on JSON parse
failure), the failure of `TextWidget::set_icon` (an unresolvable icon
name), and the failure of `Sender::send` on the re-render channel (the
crossbeam `SendError` converted through `?`). -/
inductive Error where
  | blockError (block : String) (msg : String)
  | iconError (name : String)
  | sendError
deriving DecidableEq, Repr

/-- `scheduler::Task` as sent on the re-render channel: the block's id and
the requested instant (`Instant::now()` at send time, modelled as `Nat`). -/
structure Task where
  id : Nat
  update_time : Nat
deriving DecidableEq, Repr

/-- The deserialization target of the block's JSON mode (`struct Output`
in the source): icon (serde default `""`), state (serde default `Idle`)
and text. The serde defaults are applied by the external parse function. -/
structure Output where
  icon : String
  state : State
  text : String
deriving DecidableEq, Repr

/-- A rendered text widget: the observable fields of `TextWidget` that
`render` sets (`TextWidget::new(id, 0, shared_config)` then `set_icon`,
`set_state`, `set_text`). -/
structure Widget where
  blockId : Nat
  icon : Option String
  state : State
  text : String
deriving DecidableEq, Repr

/-- The observable state of `Peekable<Cycle<vec::IntoIter<String>>>`: the
underlying list of commands and the current position. `peek` yields the
element at `pos` modulo the length (none when the list is empty, matching
`Cycle` over an empty iterator), and `next` advances the position. -/
structure CycleIter where
  items : List String
  pos : Nat
deriving DecidableEq, Repr

/-- `Peekable::peek` (cloned): the current element of the cycle, `none`
when the underlying vector is empty. -/
def CycleIter.peek (c : CycleIter) : Option String :=
  c.items.get? (c.pos % c.items.length)

/-- `Iterator::next` on the cycle: advance the position by one. -/
def CycleIter.next (c : CycleIter) : CycleIter :=
  { c with pos := c.pos + 1 }

/-- The `Custom` block's state (`struct Custom` in the source). The
`tx_update_request` sender and `shared_config` are externalized into the
environments of the individual methods. -/
structure Custom where
  id : Nat
  update_interval : Update
  command : Option String
  on_click : Option String
  cycle : Option CycleIter
  signal : Option Int
  json : Bool
  hide_when_empty : Bool
  shell : String
deriving DecidableEq, Repr

/-- `struct CustomConfig` (the block's deserialized configuration). -/
structure CustomConfig where
  interval : Update
  command : Option String
  cycle : Option (List String)
  signal : Option Int
  json : Bool
  hide_when_empty : Bool
  shell : String
deriving DecidableEq, Repr

/-- Modelled from the spec: `signals::convert_to_valid_signal` is not part
of the sources. The spec (§4.2, §9) describes it only as the
construction-time validation "rejecting out-of-range OS signal numbers",
so the model checks the number against the real-time-signal offset range
(0 to SIGRTMAX − SIGRTMIN, 30 on Linux) and returns it unchanged when it
is in range. -/
def signalInRange (s : Int) : Bool :=
  0 ≤ s && s ≤ 30

/-- Modelled from the spec: validation of a configured signal number —
an error for an out-of-range number, the signal itself otherwise. -/
def convert_to_valid_signal (s : Int) : Except Error Int :=
  if signalInRange s then .ok s
  else .error (.blockError "custom" "invalid signal value")

/-- `<Custom as ConfigBlock>::new`: build the block from its
configuration. The configured signal is validated first; then `command`
and `cycle` are checked for mutual exclusion; then whichever of the two is
present is installed (`on_click` is only set later, by the configuration
layer through `override_on_click`). -/
def new (id : Nat) (cfg : CustomConfig) : Except Error Custom :=
  let base : Custom :=
    { id := id
      update_interval := cfg.interval
      command := none
      on_click := none
      cycle := none
      signal := none
      json := cfg.json
      hide_when_empty := cfg.hide_when_empty
      shell := cfg.shell }
  let sigStep : Except Error Custom :=
    match cfg.signal with
    | some s => (convert_to_valid_signal s).map fun v => { base with signal := some v }
    | none => .ok base
  match sigStep with
  | .error e => .error e
  | .ok withSig =>
    if cfg.cycle.isSome && cfg.command.isSome then
      .error (.blockError "custom" "`command` and `cycle` are mutually exclusive")
    else
      match cfg.cycle with
      | some cy => .ok { withSig with cycle := some ⟨cy, 0⟩ }
      | none =>
        match cfg.command with
        | some cmd => .ok { withSig with command := some cmd }
        | none => .ok withSig

/-- `<Custom as Block>::update_interval`: return (a clone of) the stored
update directive. -/
def updateInterval (c : Custom) : Update :=
  c.update_interval

/-- The result of `tokio::process::Command::output().await`: either the
process ran to completion (any exit code — the source never inspects it)
with some stdout (already lossily decoded to a string), or the command
failed at the OS level with an io error whose display is `msg`. -/
inductive CmdResult where
  | output (stdout : String) (exitCode : Int)
  | ioError (msg : String)
deriving DecidableEq, Repr

/-- The environment of one `render` call: what the shell does for each
command string, what `serde_json::from_str::<Output>` returns for each
input (carrying the parse error's display on failure), and the shared
config's icon lookup used by `TextWidget::set_icon` (`none` means the
icon name does not resolve and `set_icon` fails). -/
structure RenderEnv where
  exec : String → String → CmdResult
  parseJson : String → Except String Output
  getIcon : String → Option String

/-- Lines 153–158: the command string for this render — the cycle's
current (peeked) command if a cycle is configured (empty string if the
cycle's vector is empty), else the configured `command`, else `""`. -/
def commandStr (c : Custom) : String :=
  match c.cycle with
  | some cy => cy.peek.getD ""
  | none => c.command.getD ""

/-- Rust's `str::trim`: the string with leading and trailing whitespace
removed, written with structural recursion on the character list so that
it evaluates on concrete inputs. -/
def trimString (s : String) : String :=
  ⟨((s.data.dropWhile Char.isWhitespace).reverse.dropWhile Char.isWhitespace).reverse⟩

/-- Lines 160–165: run the shell on the command string; on success the
trimmed stdout, on an OS-level error the error's display string. -/
def rawOutput (c : Custom) (env : RenderEnv) : String :=
  match env.exec c.shell (commandStr c) with
  | .output stdout _ => trimString stdout
  | .ioError msg => msg

/-- Lines 151–182 of `render`: produce the widget (icon/state set in JSON
mode) and the text to display, or the first error (JSON parse failure, or
`set_icon` failure on a nonempty parsed icon). -/
def renderCore (c : Custom) (env : RenderEnv) : Except Error (Widget × String) :=
  let widget : Widget := { blockId := c.id, icon := none, state := .idle, text := "" }
  let raw := rawOutput c env
  if c.json then
    match env.parseJson raw with
    | .error e => .error (.blockError "custom" ("Error parsing JSON: " ++ e))
    | .ok out =>
      if out.icon = "" then
        .ok ({ widget with state := out.state }, out.text)
      else
        match env.getIcon out.icon with
        | none => .error (.iconError out.icon)
        | some ic => .ok ({ widget with icon := some ic, state := out.state }, out.text)
  else
    .ok (widget, raw)

/-- `<Custom as Block>::render`: on success, the empty widget list when
the text is empty and `hide_when_empty` is set, else the single widget
with the text installed. The block state is returned unchanged (`render`
takes `&mut self` but only `Peekable::peek` touches it, which does not
advance the cycle). -/
def render (c : Custom) (env : RenderEnv) : Except Error (List Widget) × Custom :=
  match renderCore c env with
  | .error e => (.error e, c)
  | .ok (w, text) =>
    if text = "" && c.hide_when_empty then (.ok [], c)
    else (.ok [{ w with text := text }], c)

/-- The produced text of a render attempt: the text component of
`renderCore`. -/
def producedText (c : Custom) (env : RenderEnv) : Except Error String :=
  (renderCore c env).map Prod.snd

/-- The environment of one `signal` call: whether the re-render channel
accepts a send (crossbeam `Sender::send` fails only on a disconnected
channel) and the current instant. -/
structure SigEnv where
  sendOk : Bool
  now : Nat

/-- `<Custom as Block>::signal`: if a signal is configured and equals the
delivered number, send a `Task { id, update_time: now }` on the re-render
channel (propagating a send failure through `?`); otherwise do nothing.
The block state is never modified. Result: (state, returned `Result`,
messages actually delivered on the channel). -/
def onSignal (c : Custom) (n : Int) (env : SigEnv) :
    Custom × Except Error Unit × List Task :=
  match c.signal with
  | some sig =>
    if sig = n then
      if env.sendOk then (c, .ok (), [⟨c.id, env.now⟩])
      else (c, .error .sendError, [])
    else (c, .ok (), [])
  | none => (c, .ok (), [])

/-- The environment of one `click` call: whether `spawn_child_async`
succeeds, whether the re-render channel accepts a send, and the current
instant. -/
structure ClickEnv where
  spawnOk : Bool
  sendOk : Bool
  now : Nat

/-- `<Custom as Block>::click`: if `on_click` is set, spawn it — the
spawn's `Result` is discarded by `.ok()`, so `spawnOk` does not influence
anything observable — and mark an update; if a cycle is configured,
advance it and mark an update; if an update was marked, send a
`Task { id, update_time: now }` (propagating a send failure through `?`).
Result: (new state, returned `Result`, messages delivered). -/
def click (c : Custom) (env : ClickEnv) : Custom × Except Error Unit × List Task :=
  let hasUpdate := c.on_click.isSome || c.cycle.isSome
  let c2 : Custom :=
    match c.cycle with
    | some cy => { c with cycle := some cy.next }
    | none => c
  if hasUpdate then
    if env.sendOk then (c2, .ok (), [⟨c.id, env.now⟩])
    else (c2, .error .sendError, [])
  else (c2, .ok (), [])

/-- One scheduler-visible operation on a `Custom` block, with its
environment. -/
inductive Op where
  | render (env : RenderEnv)
  | click (env : ClickEnv)
  | signal (n : Int) (env : SigEnv)

/-- The state transition of one operation (the successor `Custom` state). -/
def applyOp (c : Custom) (op : Op) : Custom :=
  match op with
  | .render env => (render c env).2
  | .click env => (click c env).1
  | .signal n env => (onSignal c n env).1

/-! Helper lemmas about the state components of the three operations. -/

/-- `render` leaves the block state unchanged (only `peek` touches it). -/
theorem render_state_eq (c : Custom) (env : RenderEnv) : (render c env).2 = c := by
  unfold render
  cases h : renderCore c env with
  | error e => rfl
  | ok p => obtain ⟨w, t⟩ := p; dsimp only; split <;> rfl

/-- `signal` never modifies the block state. -/
theorem onSignal_state_eq (c : Custom) (n : Int) (env : SigEnv) :
    (onSignal c n env).1 = c := by
  unfold onSignal
  cases c.signal with
  | none => rfl
  | some sig =>
    dsimp only
    split
    · split <;> rfl
    · rfl

/-- `click` modifies only the cycle position: every other field of the
successor state equals the original. -/
theorem click_state_eq (c : Custom) (env : ClickEnv) :
    (click c env).1 =
      { c with cycle := c.cycle.map CycleIter.next } := by
  obtain ⟨cid, ui, cmd, oc, cyc, sg, js, hw, sh⟩ := c
  unfold click
  cases cyc <;> dsimp only <;> (repeat' split) <;> rfl

/-- The state transition of any operation preserves `update_interval`. -/
theorem applyOp_update_interval (c : Custom) (op : Op) :
    (applyOp c op).update_interval = c.update_interval := by
  cases op with
  | render env => rw [applyOp, render_state_eq]
  | click env => rw [applyOp, click_state_eq]
  | signal n env => rw [applyOp, onSignal_state_eq]

/-- Folding any sequence of operations preserves `update_interval`. -/
theorem foldl_applyOp_update_interval (c : Custom) (ops : List Op) :
    (ops.foldl applyOp c).update_interval = c.update_interval := by
  induction ops generalizing c with
  | nil => rfl
  | cons op rest ih => rw [List.foldl_cons, ih, applyOp_update_interval]

/-- A block built by `new` stores the configured interval. -/
theorem new_stores_interval (id : Nat) (cfg : CustomConfig) (c : Custom)
    (h : new id cfg = .ok c) : c.update_interval = cfg.interval := by
  unfold new at h
  cases hs : cfg.signal with
  | none =>
    simp only [hs] at h
    split at h
    · cases h
    · split at h
      · cases h
        rfl
      · split at h
        · cases h
          rfl
        · cases h
          rfl
  | some s =>
    simp only [hs] at h
    cases hv : convert_to_valid_signal s with
    | error e => simp [hv, Except.map] at h
    | ok v =>
      simp only [hv, Except.map] at h
      split at h
      · cases h
      · split at h
        · cases h
          rfl
        · split at h
          · cases h
            rfl
          · cases h
            rfl

/-- Whether an `Except` result is an error (Rust's `Result::is_err`). -/
def isErr {α β : Type} : Except α β → Bool
  | .error _ => true
  | .ok _ => false

/-- Whether an `Except` result is a success (Rust's `Result::is_ok`). -/
def isOk {α β : Type} : Except α β → Bool
  | .error _ => false
  | .ok _ => true

/-! Concrete block states, configurations and environments used to
instantiate the theorems below. -/

/-- A configuration setting both `command` and `cycle`. -/
def cfgBoth : CustomConfig :=
  { interval := .once, command := some "a", cycle := some ["b"], signal := none
    json := false, hide_when_empty := false, shell := "sh" }

/-- A block with a configured signal (offset 5) and a plain command. -/
def cSig : Custom :=
  { id := 3, update_interval := .every 10, command := some "date", on_click := none
    cycle := none, signal := some 5, json := false, hide_when_empty := false, shell := "sh" }

/-- A block with an `on_click` command and no cycle. -/
def cOnClick : Custom :=
  { id := 2, update_interval := .onDemand, command := none, on_click := some "notify"
    cycle := none, signal := none, json := false, hide_when_empty := false, shell := "sh" }

/-- A block with a two-command cycle. -/
def cCycle : Custom :=
  { id := 4, update_interval := .every 1, command := none, on_click := none
    cycle := some ⟨["echo a", "echo b"], 0⟩, signal := none, json := false
    hide_when_empty := false, shell := "sh" }

/-- A plain command block, JSON mode off. -/
def cPlain : Custom :=
  { id := 0, update_interval := .once, command := some "false", on_click := none
    cycle := none, signal := none, json := false, hide_when_empty := false, shell := "sh" }

/-- A render environment whose shell run completes with a nonzero exit
code and the stdout `"oops"`. -/
def envExit1 : RenderEnv :=
  { exec := fun _ _ => .output "oops" 1, parseJson := fun s => .error s
    getIcon := fun _ => none }

/-- C2: under an operational re-render channel, `signal(n)` delivers
exactly the task `{ id, now }` iff the block's configured signal equals
`n`; when it does not match, the call returns `Ok(())` and sends nothing
(independently of the channel). -/
theorem signal_sends_iff_configured (c : Custom) (n : Int) (env : SigEnv) :
    (env.sendOk = true →
      ((onSignal c n env).2.2 = [⟨c.id, env.now⟩] ↔ c.signal = some n)
      ∧ (onSignal c n env).2.1 = .ok ())
    ∧ (c.signal ≠ some n →
      (onSignal c n env).2.1 = .ok () ∧ (onSignal c n env).2.2 = []) := by
  unfold onSignal
  cases h : c.signal with
  | none => simp
  | some sig =>
    by_cases hn : sig = n
    · subst hn
      constructor
      · intro hsend
        simp [hsend]
      · intro hne
        simp at hne
    · constructor
      · intro hsend
        simp [hn]
      · intro hne
        simp [hn]

/-- Witness for C2 at a concrete block and signal: the configured signal 5
matches, so exactly the task `{3, 7}` is sent. -/
theorem signal_sends_iff_configured_witness :
    (onSignal cSig 5 ⟨true, 7⟩).2.2 = [⟨3, 7⟩] :=
  (((signal_sends_iff_configured cSig 5 ⟨true, 7⟩).1 rfl).1).mpr rfl

/-- C3: under an operational re-render channel, `click` delivers exactly
the task `{ id, now }` iff an `on_click` command or a cycle is configured;
with neither configured, it returns `Ok(())` and sends nothing. -/
theorem click_sends_iff_action (c : Custom) (env : ClickEnv) :
    (env.sendOk = true →
      ((click c env).2.2 = [⟨c.id, env.now⟩] ↔
        (c.on_click.isSome || c.cycle.isSome) = true)
      ∧ (click c env).2.1 = .ok ())
    ∧ ((c.on_click.isSome || c.cycle.isSome) = false →
      (click c env).2.1 = .ok () ∧ (click c env).2.2 = []) := by
  unfold click
  by_cases h : (c.on_click.isSome || c.cycle.isSome) = true
  · constructor
    · intro hsend
      simp [h, hsend]
    · intro hno
      rw [h] at hno
      cases hno
  · constructor
    · intro hsend
      simp [h]
    · intro hno
      simp [hno]

/-- Witness for C3 at a concrete block: an `on_click` command is
configured, so the click sends exactly the task `{2, 9}` and returns Ok. -/
theorem click_sends_iff_action_witness :
    (click cOnClick ⟨true, true, 9⟩).2.2 = [⟨2, 9⟩]
    ∧ (click cOnClick ⟨true, true, 9⟩).2.1 = .ok () :=
  ⟨(((click_sends_iff_action cOnClick ⟨true, true, 9⟩).1 rfl).1).mpr rfl,
    ((click_sends_iff_action cOnClick ⟨true, true, 9⟩).1 rfl).2⟩

/-- C5: a configuration with both `command` and `cycle` set is rejected by
`new` (whatever the other options are). -/
theorem new_rejects_command_with_cycle (id : Nat) (cfg : CustomConfig)
    (a : String) (b : List String)
    (hc : cfg.command = some a) (hy : cfg.cycle = some b) :
    isErr (new id cfg) = true := by
  unfold new
  cases hs : cfg.signal with
  | none => simp [hc, hy, isErr]
  | some s =>
    cases hv : convert_to_valid_signal s with
    | error e => simp [hv, Except.map, isErr]
    | ok v => simp [hv, Except.map, hc, hy, isErr]

/-- Witness for C5: the concrete configuration with `command = "a"` and
`cycle = ["b"]` is rejected. -/
theorem new_rejects_command_with_cycle_witness :
    isErr (new 0 cfgBoth) = true :=
  new_rejects_command_with_cycle 0 cfgBoth "a" ["b"] rfl rfl

/-- A configuration with a plain command and a configured interval. -/
def cfgPlain : CustomConfig :=
  { interval := .every 10, command := some "date", cycle := none, signal := none
    json := false, hide_when_empty := false, shell := "sh" }

/-- The block produced by `new 0 cfgPlain`. -/
def cNew : Custom :=
  { id := 0, update_interval := .every 10, command := some "date", on_click := none
    cycle := none, signal := none, json := false, hide_when_empty := false
    shell := "sh" }

/-- C8: the Update Directive is immutable — a block built by `new` carries
the configured interval, and `update_interval()` still returns exactly
that directive after any sequence of render, click and signal operations
(and is itself a pure accessor, side-effect free by construction). -/
theorem update_interval_immutable (id : Nat) (cfg : CustomConfig) (c : Custom)
    (h : new id cfg = .ok c) (ops : List Op) :
    updateInterval (ops.foldl applyOp c) = cfg.interval
    ∧ updateInterval c = cfg.interval := by
  constructor
  · rw [updateInterval, foldl_applyOp_update_interval, new_stores_interval id cfg c h]
  · rw [updateInterval, new_stores_interval id cfg c h]

/-- Witness for C8: the concrete block built from `cfgPlain` still reports
`Every 10` after a render, a click and a signal delivery. -/
theorem update_interval_immutable_witness :
    updateInterval
      ([Op.render envExit1, Op.click ⟨true, true, 4⟩, Op.signal 2 ⟨true, 5⟩].foldl
        applyOp cNew) = Update.every 10 :=
  (update_interval_immutable 0 cfgPlain cNew rfl
    [Op.render envExit1, Op.click ⟨true, true, 4⟩, Op.signal 2 ⟨true, 5⟩]).1

/-- C9: with a cycle configured, the command a render executes is the
cycle's current (peeked) element and the state is unchanged by `render`
(so consecutive renders run the same command), while each `click` advances
the cycle position by exactly one. -/
theorem cycle_peek_on_render_advance_on_click (c : Custom) (cy : CycleIter)
    (env : RenderEnv) (cenv : ClickEnv) (h : c.cycle = some cy) :
    commandStr c = cy.peek.getD ""
    ∧ (render c env).2 = c
    ∧ ((click c cenv).1).cycle = some ⟨cy.items, cy.pos + 1⟩ := by
  refine ⟨?_, render_state_eq c env, ?_⟩
  · unfold commandStr
    rw [h]
  · rw [click_state_eq, h]
    rfl

/-- Witness for C9 at the concrete two-command cycle block: the executed
command is the first cycle entry, render preserves the state, and a click
moves the position from 0 to 1. -/
theorem cycle_peek_on_render_advance_on_click_witness :
    commandStr cCycle = (CycleIter.peek ⟨["echo a", "echo b"], 0⟩).getD ""
    ∧ (render cCycle envExit1).2 = cCycle
    ∧ ((click cCycle ⟨true, true, 6⟩).1).cycle = some ⟨["echo a", "echo b"], 1⟩ :=
  cycle_peek_on_render_advance_on_click cCycle ⟨["echo a", "echo b"], 0⟩
    envExit1 ⟨true, true, 6⟩ rfl

/-- C4: whenever `render` succeeds, the widget list is empty exactly when
the produced text is empty and `hide_when_empty` is configured; otherwise
it is exactly one widget carrying the produced text. -/
theorem render_output_shape (c : Custom) (env : RenderEnv) (ws : List Widget)
    (h : (render c env).1 = .ok ws) :
    ∃ t, producedText c env = .ok t
      ∧ (ws = [] ↔ t = "" ∧ c.hide_when_empty = true)
      ∧ (¬(t = "" ∧ c.hide_when_empty = true) → ∃ w, ws = [w] ∧ w.text = t) := by
  unfold render at h
  cases hc : renderCore c env with
  | error e =>
    rw [hc] at h
    cases h
  | ok p =>
    obtain ⟨w, t⟩ := p
    rw [hc] at h
    dsimp only at h
    refine ⟨t, by simp [producedText, hc, Except.map], ?_⟩
    by_cases ht : (t = "" && c.hide_when_empty) = true
    · rw [if_pos ht] at h
      cases h
      simp only [Bool.and_eq_true, decide_eq_true_eq] at ht
      simp [ht]
    · rw [if_neg ht] at h
      cases h
      simp only [Bool.and_eq_true, decide_eq_true_eq] at ht
      constructor
      · simp [ht]
      · intro _
        exact ⟨_, rfl, rfl⟩

/-- Witness for C4 at the concrete plain block whose shell run printed
`"oops"`: render succeeds with exactly one widget showing that text. -/
theorem render_output_shape_witness :
    ∃ t, producedText cPlain envExit1 = .ok t
      ∧ (([⟨0, none, .idle, "oops"⟩] : List Widget) = []
          ↔ t = "" ∧ cPlain.hide_when_empty = true)
      ∧ (¬(t = "" ∧ cPlain.hide_when_empty = true) →
          ∃ w, ([⟨0, none, .idle, "oops"⟩] : List Widget) = [w] ∧ w.text = t) :=
  render_output_shape cPlain envExit1 [⟨0, none, .idle, "oops"⟩] (by rfl)

/-- A JSON-mode block. -/
def cJson : Custom :=
  { id := 0, update_interval := .once, command := some "false", on_click := none
    cycle := none, signal := none, json := true, hide_when_empty := false, shell := "sh" }

/-- A render environment whose JSON parse always fails with message
`"bad"`. -/
def envParseFail : RenderEnv :=
  { exec := fun _ _ => .output "not json" 0, parseJson := fun _ => .error "bad"
    getIcon := fun _ => none }

/-- C1 counterexample: the shell run of the plain (JSON-off) block exits
with the nonzero code 1, yet `render` returns Ok — the exit status is
never inspected, so a nonzero subprocess exit is not a render error. -/
theorem render_ok_despite_nonzero_exit :
    envExit1.exec cPlain.shell (commandStr cPlain) = .output "oops" 1
    ∧ isErr ((render cPlain envExit1).1) = false
    ∧ (render cPlain envExit1).1
        = .ok [{ blockId := 0, icon := none, state := .idle, text := "oops" }] := by
  exact ⟨rfl, rfl, rfl⟩

/-- C1 (amended): `render` returns Err exactly when JSON parsing is
enabled and either the output fails to parse or the parsed, nonempty icon
cannot be resolved; with JSON off `render` always succeeds — in
particular, a nonzero subprocess exit status never causes an error. -/
theorem render_err_iff_json_failure (c : Custom) (env : RenderEnv) :
    (c.json = false → isOk ((render c env).1) = true)
    ∧ (c.json = true →
        (isErr ((render c env).1) = true ↔
          (∃ e, env.parseJson (rawOutput c env) = .error e)
          ∨ (∃ out, env.parseJson (rawOutput c env) = .ok out
              ∧ out.icon ≠ "" ∧ env.getIcon out.icon = none))) := by
  constructor
  · intro hj
    unfold render renderCore
    simp only [hj, Bool.false_eq_true, if_false]
    split <;> rfl
  · intro hj
    unfold render renderCore
    simp only [hj, if_true]
    cases hp : env.parseJson (rawOutput c env) with
    | error e => simp [isErr]
    | ok out =>
      by_cases hi : out.icon = ""
      · simp [isErr, hi]
        split <;> (rename_i heq; split at heq <;> cases heq <;> rfl)
      · cases hg : env.getIcon out.icon with
        | none => simp [isErr, hi, hg]
        | some ic =>
          simp [isErr, hi, hg]
          split <;> (rename_i heq; split at heq <;> cases heq <;> rfl)

/-- Witness for C1 (amended) at the concrete JSON block whose parse
fails: render errs. -/
theorem render_err_iff_json_failure_witness :
    isErr ((render cJson envParseFail).1) = true :=
  ((render_err_iff_json_failure cJson envParseFail).2 rfl).mpr (Or.inl ⟨"bad", rfl⟩)

/-- A configuration with an in-range signal but also both `command` and
`cycle` set. -/
def cfgSignalBoth : CustomConfig :=
  { interval := .once, command := some "a", cycle := some ["b"], signal := some 5
    json := false, hide_when_empty := false, shell := "sh" }

/-- A configuration with an in-range signal and only a `command`. -/
def cfgSig : CustomConfig :=
  { interval := .every 10, command := some "date", cycle := none, signal := some 5
    json := false, hide_when_empty := false, shell := "sh" }

/-- C6 counterexample: the signal number 5 is in range, yet this
configuration (which also sets both `command` and `cycle`) is rejected by
`new` — an in-range signal alone does not guarantee that construction
succeeds. -/
theorem new_in_range_signal_can_fail :
    signalInRange 5 = true ∧ isErr (new 0 cfgSignalBoth) = true := by
  exact ⟨by decide, rfl⟩

/-- C6 (amended): a configured out-of-range signal number makes `new`
fail; an in-range one leads to a successfully built block subscribed to
that signal, provided no other validation (the `command`/`cycle` mutual
exclusion) rejects the configuration. -/
theorem new_signal_validation (id : Nat) (cfg : CustomConfig) (n : Int)
    (h : cfg.signal = some n) :
    (signalInRange n = false → isErr (new id cfg) = true)
    ∧ (signalInRange n = true → (cfg.cycle.isSome && cfg.command.isSome) = false →
        ∃ c, new id cfg = .ok c ∧ c.signal = some n) := by
  constructor
  · intro hv
    unfold new
    simp [h, convert_to_valid_signal, hv, Except.map, isErr]
  · intro hv hnb
    unfold new
    simp only [h, convert_to_valid_signal, hv, if_true, Except.map, hnb,
      Bool.false_eq_true, if_false]
    cases hcy : cfg.cycle with
    | some cy => exact ⟨_, rfl, rfl⟩
    | none =>
      cases hcmd : cfg.command with
      | some cmd => exact ⟨_, rfl, rfl⟩
      | none => exact ⟨_, rfl, rfl⟩

/-- Witness for C6 (amended): from `cfgSig` (in-range signal 5, no
`cycle`), construction succeeds and the block's signal is 5. -/
theorem new_signal_validation_witness :
    ∃ c, new 0 cfgSig = .ok c ∧ c.signal = some 5 :=
  (new_signal_validation 0 cfgSig 5 rfl).2 (by decide) (by decide)

/-- C7 counterexample: the spawn of the configured `on_click` program
fails (`spawnOk = false`), yet `click` returns `Ok(())` — the launch error
is discarded by `.ok()` and never surfaced in the returned Result. -/
theorem click_swallows_spawn_error :
    (ClickEnv.mk false true 9).spawnOk = false
    ∧ (click cOnClick (ClickEnv.mk false true 9)).2.1 = .ok () := by
  exact ⟨rfl, rfl⟩

/-- C7 (amended): `click` is total (never panics or terminates the
process) and the only error it can return is the failure to send the
Re-render Request — which happens exactly when the channel rejects the
send and an `on_click` command or cycle is configured; a failure to launch
the `on_click` program is silently ignored. -/
theorem click_error_characterization (c : Custom) (env : ClickEnv) :
    (isErr ((click c env).2.1) = true ↔
      env.sendOk = false ∧ (c.on_click.isSome || c.cycle.isSome) = true)
    ∧ (isErr ((click c env).2.1) = true → (click c env).2.1 = .error .sendError) := by
  unfold click
  by_cases h : (c.on_click.isSome || c.cycle.isSome) = true
  · cases hs : env.sendOk <;> simp [h, hs, isErr]
  · simp only [Bool.not_eq_true] at h
    simp [h, isErr]

/-- Witness for C7 (amended) at a concrete block with an `on_click`
command and a rejecting channel: the click's only error is the send
failure. -/
theorem click_error_characterization_witness :
    (click cOnClick ⟨true, false, 11⟩).2.1 = .error .sendError :=
  (click_error_characterization cOnClick ⟨true, false, 11⟩).2
    ((click_error_characterization cOnClick ⟨true, false, 11⟩).1.mpr ⟨rfl, rfl⟩)

/-- A block with `hide_when_empty` set and JSON mode off. -/
def cHide : Custom :=
  { id := 1, update_interval := .every 5, command := some "x", on_click := none
    cycle := none, signal := none, json := false, hide_when_empty := true, shell := "sh" }

/-- A render environment whose shell run fails at the OS level with an
empty error message. -/
def envIOFailEmpty : RenderEnv :=
  { exec := fun _ _ => .ioError "", parseJson := fun s => .error s
    getIcon := fun _ => none }

/-- A render environment whose shell run fails at the OS level with the
message `"boom"`. -/
def envBoom : RenderEnv :=
  { exec := fun _ _ => .ioError "boom", parseJson := fun s => .error s
    getIcon := fun _ => none }

/-- C10 counterexample: with `hide_when_empty` configured and an OS-level
execution failure whose message is empty, `render` returns Ok with the
empty widget list, not a single widget carrying the message. -/
theorem render_os_error_hidden :
    envIOFailEmpty.exec cHide.shell (commandStr cHide) = .ioError ""
    ∧ (render cHide envIOFailEmpty).1 = .ok [] := by
  exact ⟨rfl, rfl⟩

/-- C10 (amended): with JSON parsing disabled, an OS-level failure to
execute the command never makes `render` fail: it returns Ok, with the
error's message as the produced text — a single widget carrying that
message, except that an empty message under `hide_when_empty` yields the
empty widget list. -/
theorem render_os_error_as_text (c : Custom) (env : RenderEnv) (msg : String)
    (hjson : c.json = false)
    (hexec : env.exec c.shell (commandStr c) = .ioError msg) :
    (render c env).1 =
      .ok (if msg = "" && c.hide_when_empty then []
        else [{ blockId := c.id, icon := none, state := .idle, text := msg }]) := by
  unfold render renderCore rawOutput
  simp only [hexec, hjson, Bool.false_eq_true, if_false]
  split <;> rename_i hcond <;> simp [hcond]

/-- Witness for C10 (amended): a concrete OS failure with message
`"boom"` renders as a single widget showing `"boom"`. -/
theorem render_os_error_as_text_witness :
    (render cPlain envBoom).1
      = .ok [{ blockId := 0, icon := none, state := .idle, text := "boom" }] := by
  have h := render_os_error_as_text cPlain envBoom "boom" rfl rfl
  simpa using h

end Custom
